import Mathlib

/-!
Shallow embedding of the Tatiana-Server repository (Express + PostgreSQL
backend, several near-duplicate variants).

Variants modelled here:
* `TatianaA`  — the first variant in `src/server.js` (lines 1-452):
  hardcoded archive secret, `Bearer `-prefix check, test-result insert
  without a prior registration lookup, `getArchiveData` that swallows
  query errors and returns `[]`.
* `TatianaB`  — the second variant in `src/server.js` (lines 453-885),
  behaviourally identical to `src/unnamed/part_002`: salted registration
  ids, lookup-before-insert for test results (404), archive token taken
  from the env and extracted with `authorization?.replace('Bearer ', '')`.
* `TatianaP5` — the database-backed variant in `src/unnamed/part_005`
  (second half of the file): register succeeds even when no pool exists,
  archive returns raw joined rows whose `date` is the registration's
  `created_at`.

JavaScript values are modelled by `JsVal`; request handlers are pure
functions of the request body, an explicit clock (`Date.now()` as a `Nat`),
a `dbOk : Bool` flag standing for "the datastore query completes", and the
datastore state (lists of table rows).  Timestamps are `Nat`s.  PostgreSQL
level type coercions of parameters (e.g. a numeric string bound to an
INTEGER column) are not modelled; no claim exercises them.
-/

/-- A JavaScript runtime value, as far as the handlers inspect one.
`nan` stands for the number NaN (the result of a failed `parseInt`). -/
inductive JsVal where
  | undefined : JsVal
  | nul : JsVal
  | jbool : Bool → JsVal
  | num : Int → JsVal
  | nan : JsVal
  | str : String → JsVal
  | obj : List (String × JsVal) → JsVal

/-- JavaScript falsiness: `undefined`, `null`, `false`, `0`, `NaN` and `""`
are falsy; everything else (including any object) is truthy. -/
def falsy : JsVal → Bool
  | .undefined => true
  | .nul => true
  | .jbool b => !b
  | .num n => n == 0
  | .nan => true
  | .str s => s == ""
  | .obj _ => false

/-- JavaScript `a || b`. -/
def jsOr (a b : JsVal) : JsVal := if falsy a then b else a

/-- JavaScript optional-chained property access `v?.k`: `undefined` when
`v` is `undefined`/`null` or has no such property.  Property access on a
primitive also yields `undefined` for the property names used here. -/
def jsGetOpt (v : JsVal) (k : String) : JsVal :=
  match v with
  | .obj fields =>
    match fields.lookup k with
    | some x => x
    | none => .undefined
  | _ => .undefined

/-- String coercion used by template literals. -/
def jsToStr : JsVal → String
  | .undefined => "undefined"
  | .nul => "null"
  | .jbool b => if b then "true" else "false"
  | .num n => toString n
  | .nan => "NaN"
  | .str s => s
  | .obj _ => "[object Object]"

/-- Leading decimal digits of a character list. -/
def leadDigits (l : List Char) : List Char := l.takeWhile (·.isDigit)

/-- Numeric value of a list of decimal digit characters. -/
def digitsToNat (l : List Char) : Nat :=
  l.foldl (fun a c => 10 * a + (c.toNat - 48)) 0

/-- JavaScript `parseInt` on a string: optional sign followed by leading
decimal digits; `NaN` when no digit is found.  (Leading-whitespace
trimming and radix prefixes are not modelled; no claim exercises them.) -/
def parseIntStr (s : String) : JsVal :=
  match s.data with
  | '-' :: rest =>
    match leadDigits rest with
    | [] => .nan
    | ds => .num (-(digitsToNat ds : Int))
  | '+' :: rest =>
    match leadDigits rest with
    | [] => .nan
    | ds => .num (digitsToNat ds : Int)
  | l =>
    match leadDigits l with
    | [] => .nan
    | ds => .num (digitsToNat ds : Int)

/-- JavaScript `parseInt` on an arbitrary value. -/
def jsParseInt : JsVal → JsVal
  | .num n => .num n
  | .str s => parseIntStr s
  | _ => .nan

/-- Remove the first occurrence of `pat` from a character list, as
JavaScript `String.prototype.replace` with a string pattern and an empty
replacement does.  When `pat` does not occur the list is unchanged. -/
def listReplaceFirst (pat : List Char) : List Char → List Char
  | [] => []
  | c :: cs =>
    if pat.isPrefixOf (c :: cs) then (c :: cs).drop pat.length
    else c :: listReplaceFirst pat cs

/-- JavaScript `s.replace('Bearer ', '')`. -/
def replaceBearer (s : String) : String :=
  ⟨listReplaceFirst "Bearer ".data s.data⟩

/-- JavaScript `s.startsWith('Bearer ')`. -/
def startsWithBearer (s : String) : Bool :=
  "Bearer ".data.isPrefixOf s.data

/-- SQL comparison of a bound parameter against a VARCHAR column value:
only a string parameter equal to the stored id matches.  (PostgreSQL
would coerce or reject parameters of other types; the handlers only ever
bind string ids on the paths the claims exercise.) -/
def matchesId (v : JsVal) (id : String) : Bool :=
  match v with
  | .str s => s == id
  | _ => false

/-- JavaScript `v === undefined`. -/
def isUndefined : JsVal → Bool
  | .undefined => true
  | _ => false

/-- Body of a `POST /api/register` request, as destructured by the
handlers (`lastName, firstName, age, phone, telegram`, plus the optional
photo field of the B/part_005 variants); an absent field is `undefined`. -/
structure RegisterBody where
  lastName : JsVal
  firstName : JsVal
  age : JsVal
  phone : JsVal
  telegram : JsVal
  photoBase64 : JsVal

/-- Body of a `POST /api/test-result` request. -/
structure TestBody where
  registrationId : JsVal
  level : JsVal
  score : JsVal
  testData : JsVal

/-- Response of a register handler: HTTP status, the `success` flag and
the `registrationId` of the JSON payload (`none` when the payload carries
no id, i.e. on the error paths). -/
structure RegisterResp where
  status : Nat
  success : Bool
  registrationId : Option String

/-- Response of a test-result handler. -/
structure TestResp where
  status : Nat
  success : Bool

namespace TatianaA

/-- Row of variant A's `registrations` table (`src/server.js` lines
38-49): the caller-supplied columns hold whatever JavaScript value was
bound; `created_at` is set by the database at insert time. -/
structure RegRow where
  registration_id : String
  last_name : JsVal
  first_name : JsVal
  age : JsVal
  phone : JsVal
  telegram : JsVal
  created_at : Nat

/-- Row of variant A's `test_results` table (`src/server.js` lines
52-63). -/
structure TestRow where
  registration_id : JsVal
  test_type : JsVal
  libido_level : JsVal
  score : JsVal
  test_data : JsVal
  created_at : Nat

/-- Variant A datastore: the two tables. -/
structure Db where
  regs : List RegRow
  tests : List TestRow

/-- The empty datastore. -/
def db0 : Db := ⟨[], []⟩

/-- The registration id generated at `src/server.js` line 128:
`'REG_' + Date.now()`. -/
def regId (now : Nat) : String := "REG_" ++ Nat.repr now

/-- The `POST /api/register` handler of variant A (`src/server.js` lines
114-164).  `dbOk` is true when the INSERT completes; a second insert with
an already present `registration_id` violates the table's UNIQUE
constraint, so the query throws and the catch block answers 500. -/
def register (body : RegisterBody) (dbOk : Bool) (now : Nat) (db : Db) :
    RegisterResp × Db :=
  if falsy body.lastName || falsy body.firstName || falsy body.age ||
      falsy body.phone || falsy body.telegram then
    ({ status := 400, success := false, registrationId := none }, db)
  else
    let rid := regId now
    let row : RegRow :=
      { registration_id := rid, last_name := body.lastName,
        first_name := body.firstName, age := jsParseInt body.age,
        phone := body.phone, telegram := body.telegram, created_at := now }
    if dbOk && !(db.regs.any (fun r => r.registration_id == rid)) then
      ({ status := 200, success := true, registrationId := some rid },
        { db with regs := db.regs ++ [row] })
    else
      ({ status := 500, success := false, registrationId := none }, db)

/-- The `POST /api/test-result` handler of variant A (`src/server.js`
lines 167-211).  There is no registration lookup: the INSERT is attempted
directly, and the foreign key `test_results.registration_id REFERENCES
registrations(registration_id)` makes it throw when the referenced
registration does not exist, which the catch block reports as 500. -/
def testResult (body : TestBody) (dbOk : Bool) (now : Nat) (db : Db) :
    TestResp × Db :=
  if falsy body.registrationId || falsy body.level then
    ({ status := 400, success := false }, db)
  else
    let row : TestRow :=
      { registration_id := body.registrationId,
        test_type := jsOr (jsGetOpt body.testData "test_type") (.str "regular"),
        libido_level := body.level,
        score := jsOr body.score (.num 0),
        test_data := body.testData, created_at := now }
    if dbOk && db.regs.any (fun r => matchesId body.registrationId r.registration_id) then
      ({ status := 200, success := true }, { db with tests := db.tests ++ [row] })
    else
      ({ status := 500, success := false }, db)

/-- A row of variant A's archive SELECT (`src/server.js` lines 263-279)
before the JS-side reshaping: LEFT JOIN of `registrations` with
`test_results`, so the test columns are nullable. -/
structure JoinRow where
  registration_id : String
  first_name : JsVal
  last_name : JsVal
  age : JsVal
  phone : JsVal
  telegram : JsVal
  registered_at : Nat
  libido_level : Option JsVal
  score : Option JsVal
  tested_at : Option Nat

/-- The LEFT JOIN `registrations r LEFT JOIN test_results t ON
r.registration_id = t.registration_id`, row order not yet fixed. -/
def rawJoin (db : Db) : List JoinRow :=
  db.regs.flatMap fun r =>
    let ts := db.tests.filter fun t => matchesId t.registration_id r.registration_id
    if ts.isEmpty then
      [{ registration_id := r.registration_id, first_name := r.first_name,
         last_name := r.last_name, age := r.age, phone := r.phone,
         telegram := r.telegram, registered_at := r.created_at,
         libido_level := none, score := none, tested_at := none }]
    else
      ts.map fun t =>
        { registration_id := r.registration_id, first_name := r.first_name,
          last_name := r.last_name, age := r.age, phone := r.phone,
          telegram := r.telegram, registered_at := r.created_at,
          libido_level := some t.libido_level, score := some t.score,
          tested_at := some t.created_at }

/-- The ordering `ORDER BY r.created_at DESC`. -/
def geDate (a b : JoinRow) : Prop := b.registered_at ≤ a.registered_at

instance : DecidableRel geDate := fun _ _ => Nat.decLe _ _

/-- The full archive query of variant A: join, `WHERE t.libido_level IS
NOT NULL`, `ORDER BY r.created_at DESC`. -/
def query (db : Db) : List JoinRow :=
  List.insertionSort geDate ((rawJoin db).filter fun row => row.libido_level.isSome)

/-- A record of variant A's archive response (`src/server.js` lines
283-292). -/
structure ArchRec where
  fio : String
  age : JsVal
  phone : JsVal
  telegram : JsVal
  level : Option JsVal
  score : Option JsVal
  date : Nat
  registrationId : String

/-- The JS-side reshaping of one joined row (`src/server.js` lines
283-292): template-literal full name, `date: row.tested_at ||
row.registered_at`. -/
def mkRec (row : JoinRow) : ArchRec :=
  { fio := jsToStr row.last_name ++ " " ++ jsToStr row.first_name,
    age := row.age, phone := row.phone, telegram := row.telegram,
    level := row.libido_level, score := row.score,
    date := row.tested_at.getD row.registered_at,
    registrationId := row.registration_id }

/-- The `getArchiveData` helper (`src/server.js` lines 259-297): on any
query failure the catch block returns the empty list. -/
def getArchiveData (dbOk : Bool) (db : Db) : List ArchRec :=
  if dbOk then (query db).map mkRec else []

/-- Archive response of variant A.  `queried` records whether
`getArchiveData` was invoked at all (i.e. whether the datastore was
touched). -/
structure ArchResp where
  status : Nat
  success : Bool
  records : List ArchRec
  count : Nat
  queried : Bool

/-- The shared secret hardcoded at `src/server.js` line 228. -/
def archiveSecret : String := "tatiana_archive_2024_LBg_makaka_9f3a7c2e8d1b5a4c6"

/-- The bearer credential variant A extracts from the Authorization
header: `none` when the header is absent or lacks the `Bearer ` prefix,
otherwise `header.replace('Bearer ', '')`. -/
def cred (auth : Option String) : Option String :=
  match auth with
  | none => none
  | some s => if startsWithBearer s then some (replaceBearer s) else none

/-- The `GET /api/archive` handler of variant A (`src/server.js` lines
214-256): the header must be present and start with `Bearer ` and the
extracted token (`authHeader.replace('Bearer ', '')`) must equal the
hardcoded secret — `cred` bundles those two checks; only then is
`getArchiveData` called.  (The source sends two distinct 401 bodies for
a missing/malformed header and for a wrong token; both map to the same
modelled response.) -/
def archive (auth : Option String) (dbOk : Bool) (db : Db) : ArchResp :=
  match cred auth with
  | none =>
    { status := 401, success := false, records := [], count := 0, queried := false }
  | some token =>
    if token ≠ archiveSecret then
      { status := 401, success := false, records := [], count := 0, queried := false }
    else
      let data := getArchiveData dbOk db
      { status := 200, success := true, records := data, count := data.length,
        queried := true }

end TatianaA

namespace TatianaB

/-- Row of the B-variant `registrations` table (`src/server.js` lines
507-519, `src/unnamed/part_002` lines 25-37): same columns as variant A
plus the nullable `photo_base64`. -/
structure RegRow where
  registration_id : String
  last_name : JsVal
  first_name : JsVal
  age : JsVal
  phone : JsVal
  telegram : JsVal
  photo_base64 : JsVal
  created_at : Nat

/-- Row of the B-variant `test_results` table (`src/server.js` lines
521-530): `registration_id REFERENCES registrations(registration_id)`,
payload columns `test_data`, `level`, `score`. -/
structure TestRow where
  registration_id : JsVal
  test_data : JsVal
  level : JsVal
  score : JsVal
  created_at : Nat

/-- B-variant datastore. -/
structure Db where
  regs : List RegRow
  tests : List TestRow

/-- The empty datastore. -/
def db0 : Db := ⟨[], []⟩

/-- The salted registration id generated at `src/server.js` line 592:
`'REG_' + Date.now() + '_' + Math.random().toString(36).substr(2, 9)`;
the random suffix is the `salt` argument. -/
def regId (now : Nat) (salt : String) : String :=
  "REG_" ++ Nat.repr now ++ "_" ++ salt

/-- The `POST /api/register` handler of variant B (`src/server.js` lines
578-651; identical in behaviour to `src/unnamed/part_002` lines 73-145).
The Telegram notification runs in its own try/catch (B: a `setTimeout`
callback) and cannot affect the response. -/
def register (body : RegisterBody) (dbOk : Bool) (now : Nat) (salt : String)
    (db : Db) : RegisterResp × Db :=
  if falsy body.lastName || falsy body.firstName || falsy body.age ||
      falsy body.phone || falsy body.telegram then
    ({ status := 400, success := false, registrationId := none }, db)
  else
    let rid := regId now salt
    let row : RegRow :=
      { registration_id := rid, last_name := body.lastName,
        first_name := body.firstName, age := jsParseInt body.age,
        phone := body.phone, telegram := body.telegram,
        photo_base64 := jsOr body.photoBase64 .nul, created_at := now }
    if dbOk && !(db.regs.any (fun r => r.registration_id == rid)) then
      ({ status := 200, success := true, registrationId := some rid },
        { db with regs := db.regs ++ [row] })
    else
      ({ status := 500, success := false, registrationId := none }, db)

/-- The `POST /api/test-result` handler of variant B (`src/server.js`
lines 654-735; identical to `src/unnamed/part_002` lines 148-227):
validates `registrationId`, `testData`, `level` as truthy and `score` as
not `undefined`, then looks the registration up and answers 404 when it
is absent, and only then inserts.  When the datastore is unavailable the
lookup itself throws, so the catch block answers 500. -/
def testResult (body : TestBody) (dbOk : Bool) (now : Nat) (db : Db) :
    TestResp × Db :=
  if falsy body.registrationId || falsy body.testData || falsy body.level ||
      isUndefined body.score then
    ({ status := 400, success := false }, db)
  else if !dbOk then
    ({ status := 500, success := false }, db)
  else if !(db.regs.any (fun r => matchesId body.registrationId r.registration_id)) then
    ({ status := 404, success := false }, db)
  else
    let row : TestRow :=
      { registration_id := body.registrationId, test_data := body.testData,
        level := body.level, score := jsParseInt body.score, created_at := now }
    ({ status := 200, success := true }, { db with tests := db.tests ++ [row] })

/-- A row of the B-variant archive SELECT (`src/server.js` lines
749-765): LEFT JOIN with no WHERE filter, test columns nullable. -/
structure JoinRow where
  registration_id : String
  last_name : JsVal
  first_name : JsVal
  age : JsVal
  phone : JsVal
  telegram : JsVal
  photo_base64 : JsVal
  registration_date : Nat
  level : Option JsVal
  score : Option JsVal
  test_date : Option Nat

/-- The LEFT JOIN of the B-variant archive query. -/
def rawJoin (db : Db) : List JoinRow :=
  db.regs.flatMap fun r =>
    let ts := db.tests.filter fun t => matchesId t.registration_id r.registration_id
    if ts.isEmpty then
      [{ registration_id := r.registration_id, last_name := r.last_name,
         first_name := r.first_name, age := r.age, phone := r.phone,
         telegram := r.telegram, photo_base64 := r.photo_base64,
         registration_date := r.created_at,
         level := none, score := none, test_date := none }]
    else
      ts.map fun t =>
        { registration_id := r.registration_id, last_name := r.last_name,
          first_name := r.first_name, age := r.age, phone := r.phone,
          telegram := r.telegram, photo_base64 := r.photo_base64,
          registration_date := r.created_at,
          level := some t.level, score := some t.score,
          test_date := some t.created_at }

/-- The ordering `ORDER BY r.created_at DESC`. -/
def geDate (a b : JoinRow) : Prop := b.registration_date ≤ a.registration_date

instance : DecidableRel geDate := fun _ _ => Nat.decLe _ _

/-- The full B-variant archive query result. -/
def query (db : Db) : List JoinRow :=
  List.insertionSort geDate (rawJoin db)

/-- A record of the B-variant archive response (`src/server.js` lines
767-777). -/
structure ArchRec where
  registrationId : String
  fio : String
  age : JsVal
  phone : JsVal
  telegram : JsVal
  photoBase64 : JsVal
  level : Option JsVal
  score : Option JsVal
  date : Nat

/-- The JS-side reshaping of one joined row (`src/server.js` lines
767-777): template-literal full name, `date: row.test_date ||
row.registration_date`. -/
def mkRec (row : JoinRow) : ArchRec :=
  { registrationId := row.registration_id,
    fio := jsToStr row.last_name ++ " " ++ jsToStr row.first_name,
    age := row.age, phone := row.phone, telegram := row.telegram,
    photoBase64 := row.photo_base64,
    level := row.level, score := row.score,
    date := row.test_date.getD row.registration_date }

/-- Archive response of variant B. -/
structure ArchResp where
  status : Nat
  success : Bool
  records : List ArchRec
  count : Nat
  queried : Bool

/-- The bearer credential the replace-based variants extract:
`req.headers.authorization?.replace('Bearer ', '')` — `undefined` when
the header is absent, otherwise the header with its first occurrence of
`'Bearer '` removed. -/
def cred (auth : Option String) : Option String :=
  auth.map replaceBearer

/-- The `GET /api/archive` handler of variant B (`src/server.js` lines
738-795; identical to `src/unnamed/part_002` lines 230-288).  `secret` is
`process.env.ARCHIVE_TOKEN` (`none` when unset).  A query failure
propagates to the catch block and is reported as 500. -/
def archive (auth : Option String) (secret : Option String) (dbOk : Bool)
    (db : Db) : ArchResp :=
  match cred auth with
  | none =>
    { status := 401, success := false, records := [], count := 0, queried := false }
  | some token =>
    if token == "" || secret != some token then
      { status := 401, success := false, records := [], count := 0, queried := false }
    else if dbOk then
      let recs := (query db).map mkRec
      { status := 200, success := true, records := recs, count := recs.length,
        queried := true }
    else
      { status := 500, success := false, records := [], count := 0, queried := true }

end TatianaB

namespace TatianaP5

/-- The `POST /api/register` handler of the database-backed variant in
`src/unnamed/part_005` (lines 182-219 of the file): identical validation
and id generation (`'REG_' + Date.now()`) but the insert happens only
when a pool exists (`if (pool) { ... } else { log } `), and the handler
answers success either way.  The table layout is that of variant B. -/
def register (body : RegisterBody) (hasPool dbOk : Bool) (now : Nat)
    (db : TatianaB.Db) : RegisterResp × TatianaB.Db :=
  if falsy body.lastName || falsy body.firstName || falsy body.age ||
      falsy body.phone || falsy body.telegram then
    ({ status := 400, success := false, registrationId := none }, db)
  else
    let rid := "REG_" ++ Nat.repr now
    if hasPool then
      let row : TatianaB.RegRow :=
        { registration_id := rid, last_name := body.lastName,
          first_name := body.firstName, age := jsParseInt body.age,
          phone := body.phone, telegram := body.telegram,
          photo_base64 := jsOr body.photoBase64 .nul, created_at := now }
      if dbOk && !(db.regs.any (fun r => r.registration_id == rid)) then
        ({ status := 200, success := true, registrationId := some rid },
          { db with regs := db.regs ++ [row] })
      else
        ({ status := 500, success := false, registrationId := none }, db)
    else
      ({ status := 200, success := true, registrationId := some rid }, db)

/-- The `POST /api/test-result` handler of part_005 (lines 221-255 of the
file): only `registrationId` is validated; the insert happens only when a
pool exists, binding `testData`, `level` and `score` as they come, and
the handler answers success either way.  With a pool, the foreign key on
`test_results.registration_id` (line 164) rejects a dangling id, which
the catch block reports as 500. -/
def testResult (body : TestBody) (hasPool dbOk : Bool) (now : Nat)
    (db : TatianaB.Db) : TestResp × TatianaB.Db :=
  if falsy body.registrationId then
    ({ status := 400, success := false }, db)
  else if hasPool then
    if dbOk && db.regs.any (fun r => matchesId body.registrationId r.registration_id) then
      ({ status := 200, success := true },
        { db with tests := db.tests ++
          [{ registration_id := body.registrationId, test_data := body.testData,
             level := body.level, score := body.score, created_at := now }] })
    else
      ({ status := 500, success := false }, db)
  else
    ({ status := 200, success := true }, db)

/-- A row of the part_005 archive response (lines 270-285): the SELECT
aliases `r.created_at as date` and the rows are sent to the client as
they come — no full-name composition, and `date` is always the
registration's timestamp. -/
structure ArchRec where
  registration_id : String
  last_name : JsVal
  first_name : JsVal
  age : JsVal
  phone : JsVal
  telegram : JsVal
  level : Option JsVal
  score : Option JsVal
  date : Nat

/-- The LEFT JOIN of the part_005 archive query, one `ArchRec` per
result row. -/
def rawJoin (db : TatianaB.Db) : List ArchRec :=
  db.regs.flatMap fun r =>
    let ts := db.tests.filter fun t => matchesId t.registration_id r.registration_id
    if ts.isEmpty then
      [{ registration_id := r.registration_id, last_name := r.last_name,
         first_name := r.first_name, age := r.age, phone := r.phone,
         telegram := r.telegram, level := none, score := none,
         date := r.created_at }]
    else
      ts.map fun t =>
        { registration_id := r.registration_id, last_name := r.last_name,
          first_name := r.first_name, age := r.age, phone := r.phone,
          telegram := r.telegram, level := some t.level, score := some t.score,
          date := r.created_at }

/-- The ordering `ORDER BY r.created_at DESC`; the `date` column of a
result row is exactly `r.created_at`. -/
def geDate (a b : ArchRec) : Prop := b.date ≤ a.date

instance : DecidableRel geDate := fun _ _ => Nat.decLe _ _

/-- The full part_005 archive query result. -/
def query (db : TatianaB.Db) : List ArchRec :=
  List.insertionSort geDate (rawJoin db)

/-- Archive response of part_005. -/
structure ArchResp where
  status : Nat
  success : Bool
  records : List ArchRec
  count : Nat

/-- The `GET /api/archive` handler of part_005 (lines 257-301): same
replace-based credential extraction as variant B; `records` stays `[]`
when no pool exists, and the response is a success either way. -/
def archive (auth : Option String) (secret : Option String)
    (hasPool dbOk : Bool) (db : TatianaB.Db) : ArchResp :=
  match TatianaB.cred auth with
  | none => { status := 401, success := false, records := [], count := 0 }
  | some token =>
    if token == "" || secret != some token then
      { status := 401, success := false, records := [], count := 0 }
    else if hasPool then
      if dbOk then
        let recs := query db
        { status := 200, success := true, records := recs, count := recs.length }
      else
        { status := 500, success := false, records := [], count := 0 }
    else
      { status := 200, success := true, records := [], count := 0 }

end TatianaP5

/-- A fully valid registration body (the end-to-end example of the spec). -/
def validBody : RegisterBody :=
  { lastName := JsVal.str "Ivanov", firstName := JsVal.str "Ivan",
    age := JsVal.num 30, phone := JsVal.str "+71234567890",
    telegram := JsVal.str "@ivanov", photoBase64 := JsVal.undefined }

/-- A variant A datastore holding one registration and one matching test
result. -/
def dbA1 : TatianaA.Db :=
  { regs := [{ registration_id := "REG_5", last_name := JsVal.str "Ivanov",
               first_name := JsVal.str "Ivan", age := JsVal.num 30,
               phone := JsVal.str "+71234567890",
               telegram := JsVal.str "@ivanov", created_at := 5 }],
    tests := [{ registration_id := JsVal.str "REG_5",
                test_type := JsVal.str "regular",
                libido_level := JsVal.str "High", score := JsVal.num 85,
                test_data := JsVal.undefined, created_at := 6 }] }

/-- A B-layout datastore holding one registration (created at time 10)
and one matching test result (created at time 20). -/
def dbB1 : TatianaB.Db :=
  { regs := [{ registration_id := "REG_5", last_name := JsVal.str "Ivanov",
               first_name := JsVal.str "Ivan", age := JsVal.num 30,
               phone := JsVal.str "+71234567890",
               telegram := JsVal.str "@ivanov", photo_base64 := JsVal.nul,
               created_at := 10 }],
    tests := [{ registration_id := JsVal.str "REG_5",
                test_data := JsVal.undefined, level := JsVal.str "High",
                score := JsVal.num 85, created_at := 20 }] }

/-- The archive record the variant A reshaping produces for `dbA1`. -/
def recA1 : TatianaA.ArchRec :=
  { fio := "Ivanov Ivan", age := JsVal.num 30,
    phone := JsVal.str "+71234567890", telegram := JsVal.str "@ivanov",
    level := some (JsVal.str "High"), score := some (JsVal.num 85),
    date := 6, registrationId := "REG_5" }

/-- The archive record the B-variant reshaping produces for `dbB1`. -/
def recB1 : TatianaB.ArchRec :=
  { registrationId := "REG_5", fio := "Ivanov Ivan", age := JsVal.num 30,
    phone := JsVal.str "+71234567890", telegram := JsVal.str "@ivanov",
    photoBase64 := JsVal.nul, level := some (JsVal.str "High"),
    score := some (JsVal.num 85), date := 20 }

instance : IsTotal TatianaA.JoinRow TatianaA.geDate :=
  ⟨fun a b => Nat.le_total b.registered_at a.registered_at⟩

instance : IsTrans TatianaA.JoinRow TatianaA.geDate :=
  ⟨fun _ _ _ hab hbc => Nat.le_trans hbc hab⟩

instance : IsTotal TatianaB.JoinRow TatianaB.geDate :=
  ⟨fun a b => Nat.le_total b.registration_date a.registration_date⟩

instance : IsTrans TatianaB.JoinRow TatianaB.geDate :=
  ⟨fun _ _ _ hab hbc => Nat.le_trans hbc hab⟩

instance : IsTotal TatianaP5.ArchRec TatianaP5.geDate :=
  ⟨fun a b => Nat.le_total b.date a.date⟩

instance : IsTrans TatianaP5.ArchRec TatianaP5.geDate :=
  ⟨fun _ _ _ hab hbc => Nat.le_trans hbc hab⟩

/-! Helper lemmas: decimal rendering (`Nat.repr`), string plumbing, and
the `replace('Bearer ', '')` extraction. -/

lemma toDigitsCore_eq_digits (fuel : Nat) :
    ∀ (n : Nat) (acc : List Char), 0 < n → n < fuel →
      Nat.toDigitsCore 10 fuel n acc =
        ((Nat.digits 10 n).map Nat.digitChar).reverse ++ acc := by
  induction fuel with
  | zero => intro n acc h0 hf; omega
  | succ f ih =>
    intro n acc h0 hf
    rw [show Nat.toDigitsCore 10 (f + 1) n acc =
        if n / 10 = 0 then Nat.digitChar (n % 10) :: acc
        else Nat.toDigitsCore 10 f (n / 10) (Nat.digitChar (n % 10) :: acc) from by
      simp [Nat.toDigitsCore]]
    by_cases hdiv : n / 10 = 0
    · rw [if_pos hdiv, Nat.digits_def' (by norm_num) h0, hdiv]
      simp
    · rw [if_neg hdiv]
      have h0' : 0 < n / 10 := Nat.pos_of_ne_zero hdiv
      have hlt : n / 10 < n := Nat.div_lt_self h0 (by norm_num)
      rw [ih (n / 10) _ h0' (by omega), Nat.digits_def' (by norm_num) h0]
      simp

lemma toDigits_eq_digits (n : Nat) (h0 : 0 < n) :
    Nat.toDigits 10 n = ((Nat.digits 10 n).map Nat.digitChar).reverse := by
  unfold Nat.toDigits
  rw [toDigitsCore_eq_digits (n + 1) n [] h0 (Nat.lt_succ_self n), List.append_nil]

lemma digitChar_inj : ∀ a < 10, ∀ b < 10, Nat.digitChar a = Nat.digitChar b → a = b := by
  decide

lemma map_digitChar_inj : ∀ l₁ l₂ : List Nat, (∀ x ∈ l₁, x < 10) → (∀ x ∈ l₂, x < 10) →
    l₁.map Nat.digitChar = l₂.map Nat.digitChar → l₁ = l₂ := by
  intro l₁
  induction l₁ with
  | nil =>
    intro l₂ _ _ h
    cases l₂ with
    | nil => rfl
    | cons b t => simp at h
  | cons a t ih =>
    intro l₂ hb₁ hb₂ h
    cases l₂ with
    | nil => simp at h
    | cons b t₂ =>
      simp only [List.map_cons, List.cons.injEq] at h
      have ha : a < 10 := hb₁ a (List.mem_cons_self a t)
      have hb : b < 10 := hb₂ b (List.mem_cons_self b t₂)
      have hab : a = b := digitChar_inj a ha b hb h.1
      have ht : t = t₂ :=
        ih t₂ (fun x hx => hb₁ x (List.mem_cons_of_mem _ hx))
          (fun x hx => hb₂ x (List.mem_cons_of_mem _ hx)) h.2
      rw [hab, ht]

lemma toDigits_ten_inj {m n : Nat} (h : Nat.toDigits 10 m = Nat.toDigits 10 n) :
    m = n := by
  rcases Nat.eq_zero_or_pos m with hm | hm
  · rcases Nat.eq_zero_or_pos n with hn | hn
    · omega
    · exfalso
      subst hm
      rw [show Nat.toDigits 10 0 = ['0'] from rfl, toDigits_eq_digits n hn] at h
      have hmap : (Nat.digits 10 n).map Nat.digitChar = ['0'] := by
        have := congrArg List.reverse h
        simpa using this.symm
      have hdig : Nat.digits 10 n = [0] :=
        map_digitChar_inj _ [0]
          (fun x hx => Nat.digits_lt_base (by norm_num) hx)
          (by intro x hx; simp at hx; omega) (by simpa using hmap)
      have := Nat.ofDigits_digits 10 n
      rw [hdig] at this
      simp [Nat.ofDigits] at this
      omega
  · rcases Nat.eq_zero_or_pos n with hn | hn
    · exfalso
      subst hn
      rw [show Nat.toDigits 10 0 = ['0'] from rfl, toDigits_eq_digits m hm] at h
      have hmap : (Nat.digits 10 m).map Nat.digitChar = ['0'] := by
        have := congrArg List.reverse h
        simpa using this
      have hdig : Nat.digits 10 m = [0] :=
        map_digitChar_inj _ [0]
          (fun x hx => Nat.digits_lt_base (by norm_num) hx)
          (by intro x hx; simp at hx; omega) (by simpa using hmap)
      have := Nat.ofDigits_digits 10 m
      rw [hdig] at this
      simp [Nat.ofDigits] at this
      omega
    · rw [toDigits_eq_digits m hm, toDigits_eq_digits n hn] at h
      have hmap := List.reverse_injective h
      have hdig := map_digitChar_inj _ _
        (fun x hx => Nat.digits_lt_base (by norm_num) hx)
        (fun x hx => Nat.digits_lt_base (by norm_num) hx) hmap
      have h₁ := Nat.ofDigits_digits 10 m
      have h₂ := Nat.ofDigits_digits 10 n
      rw [hdig, h₂] at h₁
      exact h₁.symm

lemma stringDataInj {s t : String} (h : s.data = t.data) : s = t := by
  cases s; cases t; exact congrArg String.mk h

lemma reprDataEqToDigits (n : Nat) : (Nat.repr n).data = Nat.toDigits 10 n := rfl

lemma natRepr_inj {m n : Nat} (h : Nat.repr m = Nat.repr n) : m = n :=
  toDigits_ten_inj (congrArg String.data h)

lemma repr_no_underscore (n : Nat) : '_' ∉ (Nat.repr n).data := by
  rw [reprDataEqToDigits]
  rcases Nat.eq_zero_or_pos n with hn | hn
  · subst hn; decide
  · rw [toDigits_eq_digits n hn]
    intro hmem
    rw [List.mem_reverse, List.mem_map] at hmem
    obtain ⟨d, hd, hEq⟩ := hmem
    have hlt : d < 10 := Nat.digits_lt_base (by norm_num) hd
    have : ∀ x < 10, Nat.digitChar x ≠ '_' := by decide
    exact this d hlt hEq

lemma append_underscore_inj :
    ∀ l₁ l₂ m₁ m₂ : List Char, '_' ∉ l₁ → '_' ∉ l₂ →
      l₁ ++ '_' :: m₁ = l₂ ++ '_' :: m₂ → l₁ = l₂ ∧ m₁ = m₂ := by
  intro l₁
  induction l₁ with
  | nil =>
    intro l₂ m₁ m₂ h₁ h₂ h
    cases l₂ with
    | nil => simpa using h
    | cons b t =>
      exfalso
      simp only [List.nil_append, List.cons_append, List.cons.injEq] at h
      exact h₂ (h.1 ▸ List.mem_cons_self b t)
  | cons a t ih =>
    intro l₂ m₁ m₂ h₁ h₂ h
    cases l₂ with
    | nil =>
      exfalso
      simp only [List.nil_append, List.cons_append, List.cons.injEq] at h
      exact h₁ (h.1.symm ▸ List.mem_cons_self a t)
    | cons b t₂ =>
      simp only [List.cons_append, List.cons.injEq] at h
      have hab : a = b := h.1
      have := ih t₂ m₁ m₂ (fun hx => h₁ (List.mem_cons_of_mem _ hx))
        (fun hx => h₂ (List.mem_cons_of_mem _ hx)) h.2
      exact ⟨by rw [hab, this.1], this.2⟩

lemma string_append_left_inj (p : String) {s t : String} (h : p ++ s = p ++ t) :
    s = t := by
  have hd : p.data ++ s.data = p.data ++ t.data := congrArg String.data h
  exact stringDataInj (List.append_cancel_left hd)

lemma listReplaceFirst_append (c : Char) (cs rest : List Char) :
    listReplaceFirst (c :: cs) ((c :: cs) ++ rest) = rest := by
  show listReplaceFirst (c :: cs) (c :: (cs ++ rest)) = rest
  unfold listReplaceFirst
  rw [if_pos, ← List.cons_append, List.drop_left]
  rw [List.isPrefixOf_iff_prefix, ← List.cons_append]
  exact List.prefix_append _ _

lemma replaceBearer_prepend (s : String) : replaceBearer ("Bearer " ++ s) = s := by
  show String.mk (listReplaceFirst "Bearer ".data ("Bearer ".data ++ s.data)) = s
  rw [show "Bearer ".data = 'B' :: "earer ".data from rfl,
    listReplaceFirst_append]

/-! Claim theorems. -/

/-- C2: every `POST /api/register` call with one of the five required
fields (`lastName, firstName, age, phone, telegram`) missing or falsy is
answered 400 with `success:false` and leaves the datastore untouched —
in variant A (`src/server.js` lines 118-126) and in variant B /
`src/unnamed/part_002` lines 80-85 alike. -/
theorem register_validation_rejects (body : RegisterBody)
    (h : falsy body.lastName = true ∨ falsy body.firstName = true ∨
      falsy body.age = true ∨ falsy body.phone = true ∨ falsy body.telegram = true) :
    (∀ (dbOk : Bool) (now : Nat) (db : TatianaA.Db),
        TatianaA.register body dbOk now db =
          ({ status := 400, success := false, registrationId := none }, db)) ∧
    (∀ (dbOk : Bool) (now : Nat) (salt : String) (db : TatianaB.Db),
        TatianaB.register body dbOk now salt db =
          ({ status := 400, success := false, registrationId := none }, db)) := by
  have hc : (falsy body.lastName || falsy body.firstName || falsy body.age ||
      falsy body.phone || falsy body.telegram) = true := by
    rcases h with h | h | h | h | h <;> simp [h]
  constructor
  · intro dbOk now db
    simp [TatianaA.register, hc]
  · intro dbOk now salt db
    simp [TatianaB.register, hc]

/-- Witness for `register_validation_rejects`: a body whose `phone` is the
empty string is rejected by both variants without a write. -/
theorem register_validation_rejects_witness :
    (falsy (JsVal.str "") = true) ∧
    TatianaA.register { validBody with phone := JsVal.str "" } true 5 TatianaA.db0 =
      ({ status := 400, success := false, registrationId := none }, TatianaA.db0) :=
  ⟨rfl, (register_validation_rejects { validBody with phone := JsVal.str "" }
    (Or.inr (Or.inr (Or.inr (Or.inl rfl))))).1 true 5 TatianaA.db0⟩

/-- C9: a register body whose `age` is the number `0` takes exactly the
same 400 path as a body with `age` missing, because the `!age` check
treats every falsy value as absent; nothing is persisted. -/
theorem register_age_zero_rejected (body : RegisterBody)
    (hage : body.age = JsVal.num 0) :
    (∀ (dbOk : Bool) (now : Nat) (db : TatianaA.Db),
        TatianaA.register body dbOk now db =
          TatianaA.register { body with age := JsVal.undefined } dbOk now db ∧
        (TatianaA.register body dbOk now db).1.status = 400 ∧
        (TatianaA.register body dbOk now db).2 = db) ∧
    (∀ (dbOk : Bool) (now : Nat) (salt : String) (db : TatianaB.Db),
        TatianaB.register body dbOk now salt db =
          TatianaB.register { body with age := JsVal.undefined } dbOk now salt db ∧
        (TatianaB.register body dbOk now salt db).1.status = 400 ∧
        (TatianaB.register body dbOk now salt db).2 = db) := by
  have hf : falsy body.age = true := by rw [hage]; decide
  constructor
  · intro dbOk now db
    have h1 : TatianaA.register body dbOk now db =
        ({ status := 400, success := false, registrationId := none }, db) := by
      simp [TatianaA.register, hf]
    have h2 : TatianaA.register { body with age := JsVal.undefined } dbOk now db =
        ({ status := 400, success := false, registrationId := none }, db) := by
      simp [TatianaA.register, falsy]
    rw [h1, h2]
    exact ⟨rfl, rfl, rfl⟩
  · intro dbOk now salt db
    have h1 : TatianaB.register body dbOk now salt db =
        ({ status := 400, success := false, registrationId := none }, db) := by
      simp [TatianaB.register, hf]
    have h2 : TatianaB.register { body with age := JsVal.undefined } dbOk now salt db =
        ({ status := 400, success := false, registrationId := none }, db) := by
      simp [TatianaB.register, falsy]
    rw [h1, h2]
    exact ⟨rfl, rfl, rfl⟩

/-- Witness for `register_age_zero_rejected`: the valid sample body with
`age: 0` is rejected with 400 and no write by variant A. -/
theorem register_age_zero_rejected_witness :
    ({ validBody with age := JsVal.num 0 } : RegisterBody).age = JsVal.num 0 ∧
    ((TatianaA.register { validBody with age := JsVal.num 0 } true 5 TatianaA.db0).1.status = 400 ∧
      (TatianaA.register { validBody with age := JsVal.num 0 } true 5 TatianaA.db0).2 = TatianaA.db0) :=
  ⟨rfl,
    ((register_age_zero_rejected { validBody with age := JsVal.num 0 } rfl).1 true 5 TatianaA.db0).2⟩

/-- C8: in the permissive variant (`src/server.js` lines 167-211) the two
defaults are independent: any test-result submission with `score` absent
persists a row whose `score` column is `0` (`score || 0`), whatever the
`testData`; and any submission whose `testData` carries no `test_type`
persists a row with the generic default `'regular'`
(`testData?.test_type || 'regular'`), whatever the `score`. -/
theorem testResultA_defaults :
    (∀ (body : TestBody) (now : Nat) (db : TatianaA.Db),
        falsy body.registrationId = false →
        falsy body.level = false →
        body.score = JsVal.undefined →
        db.regs.any (fun r => matchesId body.registrationId r.registration_id) = true →
        (TatianaA.testResult body true now db).1 = { status := 200, success := true } ∧
        ∃ row : TatianaA.TestRow,
          (TatianaA.testResult body true now db).2.tests = db.tests ++ [row] ∧
          row.score = JsVal.num 0 ∧
          row.registration_id = body.registrationId ∧
          row.libido_level = body.level) ∧
    (∀ (body : TestBody) (now : Nat) (db : TatianaA.Db),
        falsy body.registrationId = false →
        falsy body.level = false →
        jsGetOpt body.testData "test_type" = JsVal.undefined →
        db.regs.any (fun r => matchesId body.registrationId r.registration_id) = true →
        (TatianaA.testResult body true now db).1 = { status := 200, success := true } ∧
        ∃ row : TatianaA.TestRow,
          (TatianaA.testResult body true now db).2.tests = db.tests ++ [row] ∧
          row.test_type = JsVal.str "regular" ∧
          row.registration_id = body.registrationId ∧
          row.libido_level = body.level) := by
  constructor
  · intro body now db hreg hlev hscore hmatch
    have h2 : jsOr JsVal.undefined (JsVal.num 0) = JsVal.num 0 := rfl
    have hres : TatianaA.testResult body true now db =
        ({ status := 200, success := true },
          { db with tests := db.tests ++
            [{ registration_id := body.registrationId,
               test_type := jsOr (jsGetOpt body.testData "test_type") (JsVal.str "regular"),
               libido_level := body.level, score := JsVal.num 0,
               test_data := body.testData, created_at := now }] }) := by
      unfold TatianaA.testResult
      rw [hreg, hlev, hscore, hmatch, h2]
      simp
    rw [hres]
    exact ⟨rfl, ⟨_, rfl, rfl, rfl, rfl⟩⟩
  · intro body now db hreg hlev htype hmatch
    have h1 : jsOr JsVal.undefined (JsVal.str "regular") = JsVal.str "regular" := rfl
    have hres : TatianaA.testResult body true now db =
        ({ status := 200, success := true },
          { db with tests := db.tests ++
            [{ registration_id := body.registrationId,
               test_type := JsVal.str "regular",
               libido_level := body.level, score := jsOr body.score (JsVal.num 0),
               test_data := body.testData, created_at := now }] }) := by
      unfold TatianaA.testResult
      rw [hreg, hlev, htype, hmatch, h1]
      simp
    rw [hres]
    exact ⟨rfl, ⟨_, rfl, rfl, rfl, rfl⟩⟩

/-- Witness for `testResultA_defaults`, exercising the two guarantees
independently: a score-less submission with an explicit `test_type`
stores score 0, and a submission with an explicit score but no
`test_type` stores type `regular`. -/
theorem testResultA_defaults_witness :
    (falsy (JsVal.str "REG_5") = false ∧ falsy (JsVal.str "High") = false) ∧
    ((TatianaA.testResult
        { registrationId := JsVal.str "REG_5", level := JsVal.str "High",
          score := JsVal.undefined,
          testData := JsVal.obj [("test_type", JsVal.str "custom")] } true 6 dbA1).1 =
      { status := 200, success := true } ∧
      ∃ row : TatianaA.TestRow,
        (TatianaA.testResult
          { registrationId := JsVal.str "REG_5", level := JsVal.str "High",
            score := JsVal.undefined,
            testData := JsVal.obj [("test_type", JsVal.str "custom")] } true 6 dbA1).2.tests =
          dbA1.tests ++ [row] ∧
        row.score = JsVal.num 0 ∧
        row.registration_id = JsVal.str "REG_5" ∧
        row.libido_level = JsVal.str "High") ∧
    ((TatianaA.testResult
        { registrationId := JsVal.str "REG_5", level := JsVal.str "High",
          score := JsVal.num 85, testData := JsVal.undefined } true 6 dbA1).1 =
      { status := 200, success := true } ∧
      ∃ row : TatianaA.TestRow,
        (TatianaA.testResult
          { registrationId := JsVal.str "REG_5", level := JsVal.str "High",
            score := JsVal.num 85, testData := JsVal.undefined } true 6 dbA1).2.tests =
          dbA1.tests ++ [row] ∧
        row.test_type = JsVal.str "regular" ∧
        row.registration_id = JsVal.str "REG_5" ∧
        row.libido_level = JsVal.str "High") :=
  ⟨⟨rfl, rfl⟩,
    testResultA_defaults.1
      { registrationId := JsVal.str "REG_5", level := JsVal.str "High",
        score := JsVal.undefined,
        testData := JsVal.obj [("test_type", JsVal.str "custom")] } 6 dbA1
      rfl rfl rfl rfl,
    testResultA_defaults.2
      { registrationId := JsVal.str "REG_5", level := JsVal.str "High",
        score := JsVal.num 85, testData := JsVal.undefined } 6 dbA1
      rfl rfl rfl rfl⟩

/-- C4: a `GET /api/archive` request whose extracted bearer credential is
missing or differs from the process-wide secret is answered 401 with
`success:false` and without issuing any datastore query — in variant A
(`src/server.js` lines 219-235, hardcoded secret) and in variant B /
`src/unnamed/part_002` lines 232-239 (secret from `ARCHIVE_TOKEN`). -/
theorem archive_bad_credential_401 :
    (∀ (auth : Option String) (dbOk : Bool) (db : TatianaA.Db),
        (TatianaA.cred auth = none ∨ TatianaA.cred auth ≠ some TatianaA.archiveSecret) →
        (TatianaA.archive auth dbOk db).status = 401 ∧
        (TatianaA.archive auth dbOk db).success = false ∧
        (TatianaA.archive auth dbOk db).queried = false) ∧
    (∀ (auth : Option String) (secret : Option String) (dbOk : Bool) (db : TatianaB.Db),
        (TatianaB.cred auth = none ∨ TatianaB.cred auth ≠ secret) →
        (TatianaB.archive auth secret dbOk db).status = 401 ∧
        (TatianaB.archive auth secret dbOk db).success = false ∧
        (TatianaB.archive auth secret dbOk db).queried = false) := by
  constructor
  · intro auth dbOk db h
    cases hc : TatianaA.cred auth with
    | none =>
      have harch : TatianaA.archive auth dbOk db =
          { status := 401, success := false, records := [], count := 0,
            queried := false } := by
        unfold TatianaA.archive
        rw [hc]
      rw [harch]
      exact ⟨rfl, rfl, rfl⟩
    | some token =>
      have hne : token ≠ TatianaA.archiveSecret := by
        rcases h with h | h
        · rw [hc] at h; cases h
        · rw [hc] at h
          intro hEq
          exact h (by rw [hEq])
      have harch : TatianaA.archive auth dbOk db =
          { status := 401, success := false, records := [], count := 0,
            queried := false } := by
        unfold TatianaA.archive
        rw [hc]
        exact if_pos hne
      rw [harch]
      exact ⟨rfl, rfl, rfl⟩
  · intro auth secret dbOk db h
    cases hc : TatianaB.cred auth with
    | none =>
      have harch : TatianaB.archive auth secret dbOk db =
          { status := 401, success := false, records := [], count := 0,
            queried := false } := by
        unfold TatianaB.archive
        rw [hc]
      rw [harch]
      exact ⟨rfl, rfl, rfl⟩
    | some token =>
      have hne : secret ≠ some token := by
        rcases h with h | h
        · rw [hc] at h; cases h
        · rw [hc] at h
          intro hEq
          exact h hEq.symm
      have hcond : (token == "" || secret != some token) = true := by
        rw [bne_iff_ne.mpr hne, Bool.or_true]
      have harch : TatianaB.archive auth secret dbOk db =
          { status := 401, success := false, records := [], count := 0,
            queried := false } := by
        unfold TatianaB.archive
        rw [hc]
        exact if_pos hcond
      rw [harch]
      exact ⟨rfl, rfl, rfl⟩

/-- Witness for `archive_bad_credential_401`: a syntactically well-formed
bearer header with the wrong token is rejected by variant A without a
query. -/
theorem archive_bad_credential_401_witness :
    (TatianaA.cred (some "Bearer wrong") = none ∨
      TatianaA.cred (some "Bearer wrong") ≠ some TatianaA.archiveSecret) ∧
    ((TatianaA.archive (some "Bearer wrong") true dbA1).status = 401 ∧
      (TatianaA.archive (some "Bearer wrong") true dbA1).success = false ∧
      (TatianaA.archive (some "Bearer wrong") true dbA1).queried = false) :=
  ⟨Or.inr (by
      rw [show TatianaA.cred (some "Bearer wrong") = some "wrong" from rfl,
        show TatianaA.archiveSecret =
          "tatiana_archive_2024_LBg_makaka_9f3a7c2e8d1b5a4c6" from rfl]
      decide),
    archive_bad_credential_401.1 (some "Bearer wrong") true dbA1 (Or.inr (by
      rw [show TatianaA.cred (some "Bearer wrong") = some "wrong" from rfl,
        show TatianaA.archiveSecret =
          "tatiana_archive_2024_LBg_makaka_9f3a7c2e8d1b5a4c6" from rfl]
      decide))⟩

/-- C1 counterexample: in the variant at `src/server.js` lines 167-211
there is no lookup before the insert — submitting a test result for the
never-created registration `REG_1` against an empty datastore is answered
500 (the foreign-key violation surfaces in the catch block), not 404. -/
theorem testResultA_no_lookup_counterexample :
    (TatianaA.testResult
        { registrationId := JsVal.str "REG_1", level := JsVal.str "High",
          score := JsVal.num 85, testData := JsVal.undefined } true 7 TatianaA.db0).1.status
      = 500 ∧
    (500 : Nat) ≠ 404 ∧
    (TatianaA.testResult
        { registrationId := JsVal.str "REG_1", level := JsVal.str "High",
          score := JsVal.num 85, testData := JsVal.undefined } true 7 TatianaA.db0).2
      = TatianaA.db0 :=
  ⟨rfl, by decide, rfl⟩

/-- C1 amended: a test-result submission whose `registrationId` matches no
existing registration persists nothing in either `src/server.js` variant;
the variant with the lookup (lines 654-735) answers 404, while the variant
without it (lines 167-211) answers 500 when the foreign-key constraint
rejects the insert. -/
theorem testResult_missing_registration :
    (∀ (body : TestBody) (now : Nat) (db : TatianaB.Db),
        falsy body.registrationId = false →
        falsy body.testData = false →
        falsy body.level = false →
        isUndefined body.score = false →
        db.regs.any (fun r => matchesId body.registrationId r.registration_id) = false →
        TatianaB.testResult body true now db = ({ status := 404, success := false }, db)) ∧
    (∀ (body : TestBody) (now : Nat) (db : TatianaA.Db),
        falsy body.registrationId = false →
        falsy body.level = false →
        db.regs.any (fun r => matchesId body.registrationId r.registration_id) = false →
        TatianaA.testResult body true now db = ({ status := 500, success := false }, db)) := by
  constructor
  · intro body now db h1 h2 h3 h4 h5
    unfold TatianaB.testResult
    rw [h1, h2, h3, h4, h5]
    simp
  · intro body now db h1 h2 h3
    unfold TatianaA.testResult
    rw [h1, h2, h3]
    simp

/-- Witness for `testResult_missing_registration`: submitting for the
unknown id `REG_9` against the one-registration sample store yields 404
in variant B and no write. -/
theorem testResult_missing_registration_witness :
    (falsy (JsVal.str "REG_9") = false ∧
      dbB1.regs.any (fun r => matchesId (JsVal.str "REG_9") r.registration_id) = false) ∧
    TatianaB.testResult
        { registrationId := JsVal.str "REG_9", level := JsVal.str "High",
          score := JsVal.num 1, testData := JsVal.obj [] } true 7 dbB1 =
      ({ status := 404, success := false }, dbB1) :=
  ⟨⟨rfl, rfl⟩,
    testResult_missing_registration.1
      { registrationId := JsVal.str "REG_9", level := JsVal.str "High",
        score := JsVal.num 1, testData := JsVal.obj [] } 7 dbB1
      rfl rfl rfl rfl rfl⟩

/-- C3 counterexample: two valid registrations during the same
`Date.now()` millisecond in variant A — the first returns `REG_5`, the
second collides with the UNIQUE `registration_id` column, is answered 500
and returns no id at all, so not every valid call yields a (fresh)
registration id. -/
theorem registerA_same_millisecond_counterexample :
    (TatianaA.register validBody true 5 TatianaA.db0).1.registrationId = some "REG_5" ∧
    (TatianaA.register validBody true 5
        (TatianaA.register validBody true 5 TatianaA.db0).2).1.status = 500 ∧
    (TatianaA.register validBody true 5
        (TatianaA.register validBody true 5 TatianaA.db0).2).1.registrationId = none :=
  ⟨rfl, rfl, rfl⟩

/-- C3 amended: generated ids are never empty; variant A ids
(`REG_<Date.now()>`) are distinct whenever the millisecond clocks differ;
variant B ids (`REG_<Date.now()>_<salt>`) are distinct whenever the
clock or the random salt differs; and when a variant A id collides with a
stored one (same millisecond) the call returns no id (the UNIQUE
constraint turns it into a 500), so successful calls never hand out a
duplicate. -/
theorem registration_id_uniqueness :
    (∀ now : Nat, TatianaA.regId now ≠ "") ∧
    (∀ now₁ now₂ : Nat, now₁ ≠ now₂ → TatianaA.regId now₁ ≠ TatianaA.regId now₂) ∧
    (∀ (now₁ now₂ : Nat) (s₁ s₂ : String),
        TatianaB.regId now₁ s₁ = TatianaB.regId now₂ s₂ → now₁ = now₂ ∧ s₁ = s₂) ∧
    (∀ (body : RegisterBody) (now : Nat) (db : TatianaA.Db),
        db.regs.any (fun r => r.registration_id == TatianaA.regId now) = true →
        (TatianaA.register body true now db).1.registrationId = none) := by
  refine ⟨?_, ?_, ?_, ?_⟩
  · intro now h
    have h2 : 'R' :: ('E' :: ('G' :: ('_' :: (Nat.repr now).data))) = ([] : List Char) :=
      congrArg String.data h
    exact List.cons_ne_nil _ _ h2
  · intro now₁ now₂ hne h
    unfold TatianaA.regId at h
    exact hne (natRepr_inj (string_append_left_inj "REG_" h))
  · intro now₁ now₂ s₁ s₂ h
    unfold TatianaB.regId at h
    have h2 := congrArg String.data h
    have e1 : ∀ (t : Nat) (s : String),
        ((("REG_" ++ Nat.repr t) ++ "_") ++ s).data =
          "REG_".data ++ ((Nat.repr t).data ++ ('_' :: s.data)) := by
      intro t s
      show (("REG_".data ++ (Nat.repr t).data) ++ ['_']) ++ s.data = _
      rw [List.append_assoc, List.append_assoc]
      rfl
    rw [e1, e1] at h2
    have h3 := List.append_cancel_left h2
    have h4 := append_underscore_inj _ _ _ _
      (repr_no_underscore now₁) (repr_no_underscore now₂) h3
    exact ⟨natRepr_inj (stringDataInj h4.1), stringDataInj h4.2⟩
  · intro body now db h
    unfold TatianaA.register
    split
    · rfl
    · show (if (true && !db.regs.any fun r => r.registration_id == TatianaA.regId now) = true
          then _ else _ : RegisterResp × TatianaA.Db).1.registrationId = none
      rw [h]
      simp

/-- Witness for `registration_id_uniqueness`: ids for the distinct
milliseconds 5 and 6 differ. -/
theorem registration_id_uniqueness_witness :
    (5 : Nat) ≠ 6 ∧ TatianaA.regId 5 ≠ TatianaA.regId 6 :=
  ⟨by decide, registration_id_uniqueness.2.1 5 6 (by decide)⟩

/-- Every row of the variant A LEFT JOIN comes from a registration, and
its test columns are either those of a matching test result or NULL when
no test result matches. -/
theorem rawJoinA_shape (db : TatianaA.Db) (row : TatianaA.JoinRow)
    (hrow : row ∈ TatianaA.rawJoin db) :
    ∃ r ∈ db.regs,
      row.registration_id = r.registration_id ∧
      row.last_name = r.last_name ∧
      row.first_name = r.first_name ∧
      row.registered_at = r.created_at ∧
      ((∃ t ∈ db.tests, matchesId t.registration_id r.registration_id = true ∧
          row.tested_at = some t.created_at ∧ row.libido_level = some t.libido_level) ∨
        ((∀ t ∈ db.tests, matchesId t.registration_id r.registration_id = false) ∧
          row.tested_at = none ∧ row.libido_level = none)) := by
  simp only [TatianaA.rawJoin, List.mem_flatMap] at hrow
  obtain ⟨r, hr, hmem⟩ := hrow
  refine ⟨r, hr, ?_⟩
  by_cases hts :
      (db.tests.filter fun t => matchesId t.registration_id r.registration_id).isEmpty = true
  · rw [if_pos hts] at hmem
    have hnil := List.isEmpty_iff.mp hts
    rcases List.mem_singleton.mp hmem with rfl
    refine ⟨rfl, rfl, rfl, rfl, Or.inr ⟨?_, rfl, rfl⟩⟩
    intro t ht
    exact Bool.eq_false_iff.mpr (List.filter_eq_nil_iff.mp hnil t ht)
  · rw [if_neg hts] at hmem
    obtain ⟨t, htf, hEq⟩ := List.mem_map.mp hmem
    have htc := List.mem_filter.mp htf
    rcases hEq with rfl
    exact ⟨rfl, rfl, rfl, rfl, Or.inl ⟨t, htc.1, htc.2, rfl, rfl⟩⟩

/-- Every row of the B-variant LEFT JOIN comes from a registration, and
its test columns are either those of a matching test result or NULL when
no test result matches. -/
theorem rawJoinB_shape (db : TatianaB.Db) (row : TatianaB.JoinRow)
    (hrow : row ∈ TatianaB.rawJoin db) :
    ∃ r ∈ db.regs,
      row.registration_id = r.registration_id ∧
      row.last_name = r.last_name ∧
      row.first_name = r.first_name ∧
      row.registration_date = r.created_at ∧
      ((∃ t ∈ db.tests, matchesId t.registration_id r.registration_id = true ∧
          row.test_date = some t.created_at ∧ row.level = some t.level) ∨
        ((∀ t ∈ db.tests, matchesId t.registration_id r.registration_id = false) ∧
          row.test_date = none ∧ row.level = none)) := by
  simp only [TatianaB.rawJoin, List.mem_flatMap] at hrow
  obtain ⟨r, hr, hmem⟩ := hrow
  refine ⟨r, hr, ?_⟩
  by_cases hts :
      (db.tests.filter fun t => matchesId t.registration_id r.registration_id).isEmpty = true
  · rw [if_pos hts] at hmem
    have hnil := List.isEmpty_iff.mp hts
    rcases List.mem_singleton.mp hmem with rfl
    refine ⟨rfl, rfl, rfl, rfl, Or.inr ⟨?_, rfl, rfl⟩⟩
    intro t ht
    exact Bool.eq_false_iff.mpr (List.filter_eq_nil_iff.mp hnil t ht)
  · rw [if_neg hts] at hmem
    obtain ⟨t, htf, hEq⟩ := List.mem_map.mp hmem
    have htc := List.mem_filter.mp htf
    rcases hEq with rfl
    exact ⟨rfl, rfl, rfl, rfl, Or.inl ⟨t, htc.1, htc.2, rfl, rfl⟩⟩

/-- Every row of the part_005 join carries its registration's
`created_at` as `date`, whether or not a test result matches. -/
theorem rawJoinP5_date (db : TatianaB.Db) (rec : TatianaP5.ArchRec)
    (hrec : rec ∈ TatianaP5.rawJoin db) :
    ∃ r ∈ db.regs, rec.registration_id = r.registration_id ∧ rec.date = r.created_at := by
  simp only [TatianaP5.rawJoin, List.mem_flatMap] at hrec
  obtain ⟨r, hr, hmem⟩ := hrec
  refine ⟨r, hr, ?_⟩
  by_cases hts :
      (db.tests.filter fun t => matchesId t.registration_id r.registration_id).isEmpty = true
  · rw [if_pos hts] at hmem
    rcases List.mem_singleton.mp hmem with rfl
    exact ⟨rfl, rfl⟩
  · rw [if_neg hts] at hmem
    obtain ⟨t, _, hEq⟩ := List.mem_map.mp hmem
    rcases hEq with rfl
    exact ⟨rfl, rfl⟩

/-- C6 counterexample: the part_005 archive sends the joined rows as they
come — for a registration created at time 10 whose matching test result
was created at time 20, the single returned record has `date = 10` (the
registration's timestamp), not the test result's 20, and its name fields
are not composed into a `fio`. -/
theorem archiveP5_date_counterexample :
    (TatianaP5.archive (some "Bearer sec") (some "sec") true true dbB1).records.map
        TatianaP5.ArchRec.date = [10] ∧
    dbB1.tests.map TatianaB.TestRow.created_at = [20] ∧
    (10 : Nat) ≠ 20 ∧
    (TatianaP5.archive (some "Bearer sec") (some "sec") true true dbB1).records.map
        TatianaP5.ArchRec.last_name = [JsVal.str "Ivanov"] :=
  ⟨rfl, rfl, by decide, rfl⟩

/-- C6 amended: in the reshaping variants every archive record carries
`fio = lastName + " " + firstName`; in the `src/server.js` lines 283-292
variant (whose query keeps only rows with a test result) the `date` is
the matching test result's timestamp, in the lines 767-777 variant the
`date` prefers the test result's timestamp and falls back to the
registration's when no test result matches; the part_005 variant instead
sends raw rows whose `date` is always the registration's timestamp. -/
theorem archive_record_shape :
    (∀ (auth secret : Option String) (db : TatianaB.Db) (rec : TatianaB.ArchRec),
        rec ∈ (TatianaB.archive auth secret true db).records →
        ∃ r ∈ db.regs,
          rec.fio = jsToStr r.last_name ++ " " ++ jsToStr r.first_name ∧
          rec.registrationId = r.registration_id ∧
          ((∃ t ∈ db.tests, matchesId t.registration_id r.registration_id = true ∧
              rec.date = t.created_at) ∨
            ((∀ t ∈ db.tests, matchesId t.registration_id r.registration_id = false) ∧
              rec.date = r.created_at))) ∧
    (∀ (db : TatianaB.Db) (rec : TatianaP5.ArchRec),
        rec ∈ TatianaP5.query db →
        ∃ r ∈ db.regs, rec.registration_id = r.registration_id ∧ rec.date = r.created_at) ∧
    (∀ (auth : Option String) (db : TatianaA.Db) (rec : TatianaA.ArchRec),
        rec ∈ (TatianaA.archive auth true db).records →
        ∃ r ∈ db.regs,
          rec.fio = jsToStr r.last_name ++ " " ++ jsToStr r.first_name ∧
          rec.registrationId = r.registration_id ∧
          ∃ t ∈ db.tests, matchesId t.registration_id r.registration_id = true ∧
            rec.date = t.created_at) := by
  refine ⟨?_, ?_, ?_⟩
  · intro auth secret db rec hrec
    have hrec2 : rec ∈ (TatianaB.query db).map TatianaB.mkRec := by
      unfold TatianaB.archive at hrec
      split at hrec
      · simp at hrec
      · split at hrec
        · simp at hrec
        · split at hrec
          · exact hrec
          · simp at hrec
    obtain ⟨row, hrow, hmk⟩ := List.mem_map.mp hrec2
    have hrowJ : row ∈ TatianaB.rawJoin db := (List.mem_insertionSort _).mp hrow
    obtain ⟨r, hr, hid, hln, hfn, hdate, hcase⟩ := rawJoinB_shape db row hrowJ
    refine ⟨r, hr, ?_, ?_, ?_⟩
    · rw [← hmk]
      show jsToStr row.last_name ++ " " ++ jsToStr row.first_name = _
      rw [hln, hfn]
    · rw [← hmk]
      exact hid
    · rcases hcase with ⟨t, ht, hm, htd, _⟩ | ⟨hall, htd, _⟩
      · refine Or.inl ⟨t, ht, hm, ?_⟩
        rw [← hmk]
        show row.test_date.getD row.registration_date = _
        rw [htd]
        rfl
      · refine Or.inr ⟨hall, ?_⟩
        rw [← hmk]
        show row.test_date.getD row.registration_date = _
        rw [htd, hdate]
        rfl
  · intro db rec hrec
    exact rawJoinP5_date db rec ((List.mem_insertionSort _).mp hrec)
  · intro auth db rec hrec
    have hrec2 : rec ∈ (TatianaA.query db).map TatianaA.mkRec := by
      unfold TatianaA.archive at hrec
      split at hrec
      · simp at hrec
      · split at hrec
        · simp at hrec
        · exact hrec
    obtain ⟨row, hrow, hmk⟩ := List.mem_map.mp hrec2
    have hrowF := (List.mem_insertionSort _).mp hrow
    have hf := List.mem_filter.mp hrowF
    obtain ⟨r, hr, hid, hln, hfn, hdate, hcase⟩ := rawJoinA_shape db row hf.1
    rcases hcase with ⟨t, ht, hm, htd, _⟩ | ⟨_, _, hlv⟩
    · refine ⟨r, hr, ?_, ?_, t, ht, hm, ?_⟩
      · rw [← hmk]
        show jsToStr row.last_name ++ " " ++ jsToStr row.first_name = _
        rw [hln, hfn]
      · rw [← hmk]
        exact hid
      · rw [← hmk]
        show row.tested_at.getD row.registered_at = _
        rw [htd]
        rfl
    · exfalso
      have hsome := hf.2
      rw [hlv] at hsome
      simp at hsome

/-- Witness for `archive_record_shape`: the single record each archive
variant returns for its sample store composes `fio` as `Ivanov Ivan` and
dates it with the test result's timestamp (B: 20, A: 6). -/
theorem archive_record_shape_witness :
    (recB1 ∈ (TatianaB.archive (some "Bearer sec") (some "sec") true dbB1).records ∧
      recA1 ∈ (TatianaA.archive (some ("Bearer " ++ TatianaA.archiveSecret)) true dbA1).records) ∧
    (∃ r ∈ dbB1.regs,
      recB1.fio = jsToStr r.last_name ++ " " ++ jsToStr r.first_name ∧
      recB1.registrationId = r.registration_id ∧
      ((∃ t ∈ dbB1.tests, matchesId t.registration_id r.registration_id = true ∧
          recB1.date = t.created_at) ∨
        ((∀ t ∈ dbB1.tests, matchesId t.registration_id r.registration_id = false) ∧
          recB1.date = r.created_at))) ∧
    (∃ r ∈ dbA1.regs,
      recA1.fio = jsToStr r.last_name ++ " " ++ jsToStr r.first_name ∧
      recA1.registrationId = r.registration_id ∧
      ∃ t ∈ dbA1.tests, matchesId t.registration_id r.registration_id = true ∧
        recA1.date = t.created_at) := by
  have hmB : recB1 ∈ (TatianaB.archive (some "Bearer sec") (some "sec") true dbB1).records :=
    List.mem_singleton_self _
  have hmA : recA1 ∈
      (TatianaA.archive (some ("Bearer " ++ TatianaA.archiveSecret)) true dbA1).records :=
    List.mem_singleton_self _
  exact ⟨⟨hmB, hmA⟩,
    archive_record_shape.1 (some "Bearer sec") (some "sec") dbB1 recB1 hmB,
    archive_record_shape.2.2 (some ("Bearer " ++ TatianaA.archiveSecret)) dbA1 recA1 hmA⟩

/-- C5 counterexample: with the datastore query failing, variant A's
archive still answers 200/`success:true` with zero records for a
non-empty store (the catch inside `getArchiveData` swallows the error,
`src/server.js` lines 293-296); and with no pool, part_005's register
and test-result handlers both answer 200/`success:true` without
persisting anything. -/
theorem success_despite_persistence_failure :
    ((TatianaA.archive (some ("Bearer " ++ TatianaA.archiveSecret)) false dbA1).status = 200 ∧
      (TatianaA.archive (some ("Bearer " ++ TatianaA.archiveSecret)) false dbA1).success = true ∧
      (TatianaA.archive (some ("Bearer " ++ TatianaA.archiveSecret)) false dbA1).records = [] ∧
      dbA1.regs.length = 1) ∧
    ((TatianaP5.register validBody false true 5 TatianaB.db0).1.status = 200 ∧
      (TatianaP5.register validBody false true 5 TatianaB.db0).1.success = true ∧
      (TatianaP5.register validBody false true 5 TatianaB.db0).1.registrationId = some "REG_5" ∧
      (TatianaP5.register validBody false true 5 TatianaB.db0).2 = TatianaB.db0) ∧
    ((TatianaP5.testResult
        { registrationId := JsVal.str "REG_5", level := JsVal.str "High",
          score := JsVal.num 85, testData := JsVal.undefined } false true 5 TatianaB.db0).1.status
        = 200 ∧
      (TatianaP5.testResult
        { registrationId := JsVal.str "REG_5", level := JsVal.str "High",
          score := JsVal.num 85, testData := JsVal.undefined } false true 5 TatianaB.db0).1.success
        = true ∧
      (TatianaP5.testResult
        { registrationId := JsVal.str "REG_5", level := JsVal.str "High",
          score := JsVal.num 85, testData := JsVal.undefined } false true 5 TatianaB.db0).2
        = TatianaB.db0) :=
  ⟨⟨rfl, rfl, rfl, rfl⟩, ⟨rfl, rfl, rfl, rfl⟩, ⟨rfl, rfl, rfl⟩⟩

/-- C5 amended: the write paths of both `src/server.js` variants report
persistence failure — their register and test-result handlers answer 500
and leave the store unchanged when the query fails — and the B-variant
archive answers 500 when its query fails; but variant A's archive
swallows query failure into a success with zero records, and part_005's
register and test-result handlers report success with no pool at all. -/
theorem persistence_failure_reported :
    (∀ (body : RegisterBody) (now : Nat) (db : TatianaA.Db),
        falsy body.lastName = false → falsy body.firstName = false →
        falsy body.age = false → falsy body.phone = false → falsy body.telegram = false →
        TatianaA.register body false now db =
          ({ status := 500, success := false, registrationId := none }, db)) ∧
    (∀ (body : TestBody) (now : Nat) (db : TatianaA.Db),
        falsy body.registrationId = false → falsy body.level = false →
        TatianaA.testResult body false now db = ({ status := 500, success := false }, db)) ∧
    (∀ (body : RegisterBody) (now : Nat) (salt : String) (db : TatianaB.Db),
        falsy body.lastName = false → falsy body.firstName = false →
        falsy body.age = false → falsy body.phone = false → falsy body.telegram = false →
        TatianaB.register body false now salt db =
          ({ status := 500, success := false, registrationId := none }, db)) ∧
    (∀ (body : TestBody) (now : Nat) (db : TatianaB.Db),
        falsy body.registrationId = false → falsy body.testData = false →
        falsy body.level = false → isUndefined body.score = false →
        TatianaB.testResult body false now db = ({ status := 500, success := false }, db)) ∧
    (∀ (auth secret : Option String) (db : TatianaB.Db) (token : String),
        TatianaB.cred auth = some token → token ≠ "" → secret = some token →
        (TatianaB.archive auth secret false db).status = 500 ∧
        (TatianaB.archive auth secret false db).success = false) := by
  refine ⟨?_, ?_, ?_, ?_, ?_⟩
  · intro body now db h1 h2 h3 h4 h5
    unfold TatianaA.register
    rw [h1, h2, h3, h4, h5]
    simp
  · intro body now db h1 h2
    unfold TatianaA.testResult
    rw [h1, h2]
    simp
  · intro body now salt db h1 h2 h3 h4 h5
    unfold TatianaB.register
    rw [h1, h2, h3, h4, h5]
    simp
  · intro body now db h1 h2 h3 h4
    unfold TatianaB.testResult
    rw [h1, h2, h3, h4]
    simp
  · intro auth secret db token hc hne hs
    have hnc : ¬((token == "" || secret != some token) = true) := by
      rw [hs]
      simp [hne]
    have harch : TatianaB.archive auth secret false db =
        { status := 500, success := false, records := [], count := 0,
          queried := true } := by
      unfold TatianaB.archive
      rw [hc]
      exact if_neg hnc
    rw [harch]
    exact ⟨rfl, rfl⟩

/-- Witness for `persistence_failure_reported`: a failing INSERT for the
valid sample body yields 500 and no write in variant A. -/
theorem persistence_failure_reported_witness :
    (falsy validBody.lastName = false) ∧
    TatianaA.register validBody false 5 TatianaA.db0 =
      ({ status := 500, success := false, registrationId := none }, TatianaA.db0) :=
  ⟨rfl, persistence_failure_reported.1 validBody 5 TatianaA.db0 rfl rfl rfl rfl rfl⟩

/-- C7: in both cited variants the archive rows are sorted by
registration creation time descending (`ORDER BY r.created_at DESC`),
the records sent to the client are exactly the reshaped rows in that
order together with their count, and an authorized call against an empty
store is a success with an empty list and count 0, not an error — for
the B variant (`src/server.js` lines 738-795, part_002) and for variant
A (`getArchiveData`, `src/server.js` lines 259-297). -/
theorem archive_order_and_empty :
    (∀ db : TatianaB.Db,
        ((TatianaB.query db).map TatianaB.JoinRow.registration_date).Sorted
          (fun x y : Nat => y ≤ x)) ∧
    (∀ (auth secret : Option String) (db : TatianaB.Db) (token : String),
        TatianaB.cred auth = some token → token ≠ "" → secret = some token →
        (TatianaB.archive auth secret true db).records =
          (TatianaB.query db).map TatianaB.mkRec ∧
        (TatianaB.archive auth secret true db).count =
          ((TatianaB.query db).map TatianaB.mkRec).length ∧
        (TatianaB.archive auth secret true db).success = true) ∧
    (∀ (auth secret : Option String) (token : String),
        TatianaB.cred auth = some token → token ≠ "" → secret = some token →
        TatianaB.archive auth secret true TatianaB.db0 =
          { status := 200, success := true, records := [], count := 0,
            queried := true }) ∧
    (∀ db : TatianaA.Db,
        ((TatianaA.query db).map TatianaA.JoinRow.registered_at).Sorted
          (fun x y : Nat => y ≤ x)) ∧
    (∀ (auth : Option String) (db : TatianaA.Db),
        TatianaA.cred auth = some TatianaA.archiveSecret →
        (TatianaA.archive auth true db).records =
          (TatianaA.query db).map TatianaA.mkRec ∧
        (TatianaA.archive auth true db).count =
          ((TatianaA.query db).map TatianaA.mkRec).length ∧
        (TatianaA.archive auth true db).success = true) ∧
    (∀ auth : Option String,
        TatianaA.cred auth = some TatianaA.archiveSecret →
        TatianaA.archive auth true TatianaA.db0 =
          { status := 200, success := true, records := [], count := 0,
            queried := true }) := by
  refine ⟨?_, ?_, ?_, ?_, ?_, ?_⟩
  · intro db
    have h := List.sorted_insertionSort TatianaB.geDate (TatianaB.rawJoin db)
    unfold List.Sorted
    rw [List.pairwise_map]
    exact h
  · intro auth secret db token hc hne hs
    have hnc : ¬((token == "" || secret != some token) = true) := by
      rw [hs]
      simp [hne]
    have harch : TatianaB.archive auth secret true db =
        { status := 200, success := true,
          records := (TatianaB.query db).map TatianaB.mkRec,
          count := ((TatianaB.query db).map TatianaB.mkRec).length,
          queried := true } := by
      unfold TatianaB.archive
      rw [hc]
      exact if_neg hnc
    rw [harch]
    exact ⟨rfl, rfl, rfl⟩
  · intro auth secret token hc hne hs
    have hnc : ¬((token == "" || secret != some token) = true) := by
      rw [hs]
      simp [hne]
    have harch : TatianaB.archive auth secret true TatianaB.db0 =
        { status := 200, success := true,
          records := (TatianaB.query TatianaB.db0).map TatianaB.mkRec,
          count := ((TatianaB.query TatianaB.db0).map TatianaB.mkRec).length,
          queried := true } := by
      unfold TatianaB.archive
      rw [hc]
      exact if_neg hnc
    rw [harch]
    rfl
  · intro db
    have h := List.sorted_insertionSort TatianaA.geDate
      ((TatianaA.rawJoin db).filter fun row => row.libido_level.isSome)
    unfold List.Sorted
    rw [List.pairwise_map]
    exact h
  · intro auth db hc
    have harch : TatianaA.archive auth true db =
        { status := 200, success := true,
          records := (TatianaA.query db).map TatianaA.mkRec,
          count := ((TatianaA.query db).map TatianaA.mkRec).length,
          queried := true } := by
      unfold TatianaA.archive
      rw [hc]
      exact if_neg (fun h => h rfl)
    rw [harch]
    exact ⟨rfl, rfl, rfl⟩
  · intro auth hc
    have harch : TatianaA.archive auth true TatianaA.db0 =
        { status := 200, success := true,
          records := (TatianaA.query TatianaA.db0).map TatianaA.mkRec,
          count := ((TatianaA.query TatianaA.db0).map TatianaA.mkRec).length,
          queried := true } := by
      unfold TatianaA.archive
      rw [hc]
      exact if_neg (fun h => h rfl)
    rw [harch]
    rfl

/-- Witness for `archive_order_and_empty`: authorized calls against the
empty stores of both variants return success, no records and count 0. -/
theorem archive_order_and_empty_witness :
    (TatianaB.cred (some "Bearer sec") = some "sec" ∧ ("sec" : String) ≠ "" ∧
      TatianaA.cred (some ("Bearer " ++ TatianaA.archiveSecret)) =
        some TatianaA.archiveSecret) ∧
    TatianaB.archive (some "Bearer sec") (some "sec") true TatianaB.db0 =
      { status := 200, success := true, records := [], count := 0, queried := true } ∧
    TatianaA.archive (some ("Bearer " ++ TatianaA.archiveSecret)) true TatianaA.db0 =
      { status := 200, success := true, records := [], count := 0, queried := true } :=
  ⟨⟨rfl, by decide, rfl⟩,
    archive_order_and_empty.2.2.1 (some "Bearer sec") (some "sec") "sec" rfl (by decide) rfl,
    archive_order_and_empty.2.2.2.2.2 (some ("Bearer " ++ TatianaA.archiveSecret)) rfl⟩

/-- C10 counterexample: with the shared secret `xBearer y` (which contains
`'Bearer '` as a substring though not as a prefix), a header equal to the
bare secret is mangled by `replace('Bearer ', '')` into `xy` and rejected
401, while the well-formed bearer header for the same secret is accepted
200 — so a bare-secret header is not always treated like a well-formed
one. -/
theorem archiveB_bare_secret_counterexample :
    (TatianaB.archive (some "xBearer y") (some "xBearer y") true TatianaB.db0).status = 401 ∧
    (TatianaB.archive (some "xBearer y") (some "xBearer y") true TatianaB.db0).success = false ∧
    (TatianaB.archive (some ("Bearer " ++ "xBearer y")) (some "xBearer y") true
        TatianaB.db0).status = 200 :=
  ⟨rfl, rfl, rfl⟩

/-- C10 amended: whenever the shared secret is non-empty and is left
unchanged by `replace('Bearer ', '')` (i.e. it does not contain
`'Bearer '`), the replace-based variants treat a bare-secret
Authorization header exactly like a well-formed bearer header, and such
a request is authorized. -/
theorem archiveB_bare_secret_accepted (s : String) (dbOk : Bool) (db : TatianaB.Db)
    (hne : s ≠ "") (hfix : replaceBearer s = s) :
    TatianaB.archive (some s) (some s) dbOk db =
      TatianaB.archive (some ("Bearer " ++ s)) (some s) dbOk db ∧
    (TatianaB.archive (some s) (some s) true db).status = 200 ∧
    (TatianaB.archive (some s) (some s) true db).success = true := by
  have hc1 : TatianaB.cred (some s) = some s := by
    show some (replaceBearer s) = some s
    rw [hfix]
  have hc2 : TatianaB.cred (some ("Bearer " ++ s)) = some s := by
    show some (replaceBearer ("Bearer " ++ s)) = some s
    rw [replaceBearer_prepend]
  have hnc : ¬((s == "" || (some s : Option String) != some s) = true) := by
    simp [hne]
  have harch : TatianaB.archive (some s) (some s) true db =
      { status := 200, success := true,
        records := (TatianaB.query db).map TatianaB.mkRec,
        count := ((TatianaB.query db).map TatianaB.mkRec).length,
        queried := true } := by
    unfold TatianaB.archive
    rw [hc1]
    exact if_neg hnc
  refine ⟨?_, ?_, ?_⟩
  · unfold TatianaB.archive
    rw [hc1, hc2]
  · rw [harch]
  · rw [harch]

/-- Witness for `archiveB_bare_secret_accepted`: with secret `sec`, the
bare header `sec` behaves exactly like `Bearer sec` and is authorized. -/
theorem archiveB_bare_secret_accepted_witness :
    (("sec" : String) ≠ "" ∧ replaceBearer "sec" = "sec") ∧
    (TatianaB.archive (some "sec") (some "sec") true dbB1 =
        TatianaB.archive (some ("Bearer " ++ "sec")) (some "sec") true dbB1 ∧
      (TatianaB.archive (some "sec") (some "sec") true dbB1).status = 200 ∧
      (TatianaB.archive (some "sec") (some "sec") true dbB1).success = true) :=
  ⟨⟨by decide, rfl⟩, archiveB_bare_secret_accepted "sec" true dbB1 (by decide) rfl⟩
